import Mathlib

/-!
Shallow embedding of the route-tts speech orchestration engine
(src/route_tts/client.py, src/route_tts/types.py, src/route_tts/voices.py,
src/route_tts/eleven_labs/client.py).

Modelling conventions:
* A pydub `AudioSegment` is modelled by its two claim-relevant observables:
  loudness (`dBFS`, a rational) and duration in milliseconds.  `apply_gain`
  adds to the loudness and preserves duration; concatenation of segments adds
  durations (pydub: `len(a + b) = len(a) + len(b)`).  A combined
  single-output buffer is represented by the ordered list of its concatenated
  parts, whose duration is the sum of the durations of the parts.
* Provider HTTP calls are modelled by a deterministic environment `Env`:
  the ElevenLabs endpoint is a function of the URL voice id and the JSON
  payload, OpenAI synthesis a function of (model, voice, text).  Decoding of
  the returned audio bytes (`AudioSegment.from_file`) is collapsed into the
  environment, which directly supplies the decoded segment.
* Python exceptions are modelled with `Except Err`; `errStr` is the Python
  `str(e)` rendering.  Every function that can issue ElevenLabs HTTP requests also
  returns the ordered list of `ELCall` records it issued (the arguments of
  each `_generate_elevenlabs_speech` invocation), so that conditioning
  behaviour is observable.
-/

inductive Platform where
  | openai
  | elevenlabs
deriving DecidableEq

/-- Voice descriptor (src/route_tts/voices.py).  `OpenAIVoice` and
`ElevenLabsVoice` both carry `voice_model` and `voice`; they are merged into
one structure tagged by `platform`. -/
structure Voice where
  id : String
  platform : Platform
  voice_model : String
  voice : String
deriving DecidableEq

/-- Speech block (src/route_tts/types.py lines 25-28).  The `buffer` field
(trailing silence in milliseconds) is declared in the source but never read
by the generation pipeline. -/
structure SpeechBlock where
  voice_id : String
  text : String
  buffer : Nat
deriving DecidableEq

/-- Abstract audio buffer: loudness (dBFS) and duration (ms). -/
structure AudioSegment where
  dBFS : ℚ
  durationMs : ℚ
deriving DecidableEq

/-- pydub `AudioSegment.apply_gain`: loudness is logarithmic, so gain is
additive; duration is unchanged. -/
def AudioSegment.apply_gain (a : AudioSegment) (g : ℚ) : AudioSegment :=
  { dBFS := a.dBFS + g, durationMs := a.durationMs }

/-- Duration of the concatenation of a list of segments (pydub concatenation
is additive in length). -/
def combinedDurationMs (parts : List AudioSegment) : ℚ :=
  (parts.map AudioSegment.durationMs).sum

/-- Python `l[-3:]` style suffix: the last `n` elements of `l`. -/
def lastN (n : Nat) (l : List String) : List String :=
  l.drop (l.length - n)

/-- Python `" ".join(...)`. -/
def joinSpace (l : List String) : String :=
  String.intercalate " " l

/-- JSON payload of the ElevenLabs text-to-speech request
(src/route_tts/eleven_labs/client.py lines 30-41).  Optional keys model the
payload keys that are conditionally added. -/
structure ELPayload where
  text : String
  model_id : String
  previous_request_ids : Option (List String)
  previous_text : Option String
  next_text : Option String
deriving DecidableEq

/-- Record of one `_generate_elevenlabs_speech` invocation: the voice routed
to the URL, the model, and the conditioning arguments exactly as passed. -/
structure ELCall where
  voice_id : String
  model_id : String
  text : String
  previous_text : Option String
  next_text : Option String
  previous_request_ids : Option (List String)
deriving DecidableEq

/-- HTTP response of the ElevenLabs endpoint: status, decoded audio content,
the optional `request-id` header, and the error text body. -/
structure ELResponse where
  status_code : Nat
  content : AudioSegment
  request_id : Option String
  text : String
deriving DecidableEq

/-- Python exceptions raised by the modelled code. -/
inductive Err where
  /-- Python `ValueError(msg)`. -/
  | valueError (msg : String)
  /-- Python `KeyError(key)` from a dict lookup `self.voices[...]` -/
  | keyError (key : String)
  /-- plain `Exception(msg)` (raised by the ElevenLabs client on non-200) -/
  | exception (msg : String)
  /-- The `ValueError` raised by Python `max()` on an empty sequence; this is the
  failure the specification calls `EmptyInputError` -/
  | maxEmpty
  /-- Python `ZeroDivisionError`. -/
  | zeroDivision
deriving DecidableEq

/-- Python `str(e)` for the exceptions above (`str` of a `KeyError` shows the
`repr` of the key, hence the quotes). -/
def errStr : Err → String
  | .valueError m => m
  | .keyError k => "\x27" ++ k ++ "\x27"
  | .exception m => m
  | .maxEmpty => "max() arg is an empty sequence"
  | .zeroDivision => "division by zero"

/-- Deterministic environment standing for the two vendor APIs.  `eleven`
maps (URL voice id, payload) to the HTTP response; `openai` maps
(model, voice, text) to the synthesized audio or a raised exception. -/
structure Env where
  eleven : String → ELPayload → ELResponse
  openai : String → String → String → Except Err AudioSegment

/-- The `TTS` client state: registered voices (the dict `self.voices`) and
whether the two vendor clients are initialized. -/
structure TTS where
  voices : List Voice
  hasOpenAI : Bool
  hasEleven : Bool

/-- Dict lookup `self.voices.get(id)` / `self.voices[id]`.  The dict is built
by `{voice.id: voice for voice in voices}`, so a later duplicate id
overwrites an earlier one: search from the end. -/
def TTS.lookupVoice (tts : TTS) (vid : String) : Option Voice :=
  tts.voices.reverse.find? (fun v => v.id == vid)

/-- Payload construction of `generate_speech_with_conditioning`
(src/route_tts/eleven_labs/client.py lines 30-41): `previous_request_ids` is
added only when truthy (non-`None` and non-empty), truncated to the last 3;
`previous_text`/`next_text` are added only when not `None`.  The constant
`voice_settings: None` key is omitted from the model. -/
def mkPayload (text model_id : String) (previous_request_ids : Option (List String))
    (previous_text next_text : Option String) : ELPayload :=
  { text := text
    model_id := model_id
    previous_request_ids :=
      match previous_request_ids with
      | none => none
      | some l => if l.isEmpty then none else some (lastN 3 l)
    previous_text := previous_text
    next_text := next_text }

/-- Model of `TTS._generate_elevenlabs_speech` (src/route_tts/client.py lines 260-282)
composed with `generate_speech_with_conditioning`
(src/route_tts/eleven_labs/client.py lines 18-48).  The inner client raises
`Exception` on a non-200 status, so the outer `status_code != 200` re-check
at client.py line 273 is unreachable and the outer path only handles the
missing `request-id` header.  Returns the result together with the list of
HTTP calls issued (one on the initialized path, none otherwise). -/
def genElevenSpeech (tts : TTS) (env : Env) (voice : Voice) (text : String)
    (previous_text next_text : Option String)
    (previous_request_ids : Option (List String)) :
    (Except Err (AudioSegment × String)) × List ELCall :=
  if tts.hasEleven then
    let call : ELCall :=
      { voice_id := voice.voice, model_id := voice.voice_model, text := text
        previous_text := previous_text, next_text := next_text
        previous_request_ids := previous_request_ids }
    let resp := env.eleven voice.voice
      (mkPayload text voice.voice_model previous_request_ids previous_text next_text)
    if resp.status_code = 200 then
      match resp.request_id with
      | none => (Except.error (Err.valueError "No request-id found in response headers"), [call])
      | some rid => (Except.ok (resp.content, rid), [call])
    else
      (Except.error (Err.exception ("Error generating speech: " ++ resp.text)), [call])
  else
    (Except.error (Err.valueError "ElevenLabs client is not initialized. Please provide a valid ElevenLabs API key."), [])

/-- Model of `TTS._generate_openai_speech` (src/route_tts/client.py lines 249-258). -/
def genOpenAISpeech (tts : TTS) (env : Env) (voice : Voice) (text : String) :
    Except Err AudioSegment :=
  if tts.hasOpenAI then
    env.openai voice.voice_model voice.voice text
  else
    Except.error (Err.valueError "OpenAI client is not initialized. Please provide a valid OpenAI API key.")

/-- Loop body of `generate_eleven_labs_audio_group`
(src/route_tts/client.py lines 79-99), recursing over the remaining blocks
`rest` while `i` is the index of the head of `rest` inside the full `group`.
`prevIds` is the accumulated (unbounded) continuation-token history; each
call receives only `previous_request_ids[-3:]`. -/
def elGroupAux (tts : TTS) (env : Env) (group : List SpeechBlock) :
    Nat → List String → List SpeechBlock →
    (Except Err (List (AudioSegment × String))) × List ELCall
  | _, _, [] => (Except.ok [], [])
  | i, prevIds, b :: rest =>
    match tts.lookupVoice b.voice_id with
    | none => (Except.error (Err.keyError b.voice_id), [])
    | some voice =>
      match genElevenSpeech tts env voice b.text
          (if i = 0 then none
           else some (joinSpace ((group.take i).map SpeechBlock.text)))
          (if i = group.length - 1 then none
           else some (joinSpace ((group.drop (i + 1)).map SpeechBlock.text)))
          (some (lastN 3 prevIds)) with
      | (Except.error e, cs) => (Except.error e, cs)
      | (Except.ok ar, cs) =>
        match elGroupAux tts env group (i + 1) (prevIds ++ [ar.2]) rest with
        | (Except.error e, cs2) => (Except.error e, cs ++ cs2)
        | (Except.ok pairs, cs2) => (Except.ok (ar :: pairs), cs ++ cs2)

/-- Model of `TTS.generate_eleven_labs_audio_group` (src/route_tts/client.py lines
75-101): synthesize a stitching group, returning the ordered list of
(audio segment, request id) pairs and the trace of HTTP calls. -/
def generate_eleven_labs_audio_group (tts : TTS) (env : Env)
    (group : List SpeechBlock) :
    (Except Err (List (AudioSegment × String))) × List ELCall :=
  elGroupAux tts env group 0 [] group

/-- Model of `TTS.generate_speech` (src/route_tts/client.py lines 225-247): resolve
the voice with `.get` (raising `ValueError`, not `KeyError`, when absent) and
dispatch on the platform.  An ElevenLabs standalone call passes no
conditioning arguments (all defaults `None`). -/
def generate_speech (tts : TTS) (env : Env) (speech_block : SpeechBlock) :
    (Except Err AudioSegment) × List ELCall :=
  match tts.lookupVoice speech_block.voice_id with
  | none =>
    (Except.error (Err.valueError ("Voice ID \x27" ++ speech_block.voice_id ++ "\x27 not found")), [])
  | some voice =>
    match voice.platform with
    | Platform.openai => (genOpenAISpeech tts env voice speech_block.text, [])
    | Platform.elevenlabs =>
      match genElevenSpeech tts env voice speech_block.text none none none with
      | (Except.error e, cs) => (Except.error e, cs)
      | (Except.ok ar, cs) => (Except.ok ar.1, cs)

/-- Model of `should_group_speech_block` (src/route_tts/client.py lines 129-131). -/
def should_group_speech_block (group : List SpeechBlock) (b : SpeechBlock) : Bool :=
  group.isEmpty || ((group.getLast?).map SpeechBlock.voice_id == some b.voice_id)

/-- One iteration of the `generate_speech_list` scan
(src/route_tts/client.py lines 133-158), before exception wrapping.  Returns
the updated (audio segments, current group) or the raised exception, plus
the HTTP calls issued.  Note: in the non-ElevenLabs branch (source lines
147-154) the group is flushed but NOT cleared. -/
def loopBody (tts : TTS) (env : Env) (request_stitching : Bool)
    (segs : List AudioSegment) (group : List SpeechBlock) (b : SpeechBlock) :
    (Except Err (List AudioSegment × List SpeechBlock)) × List ELCall :=
  if request_stitching then
    match tts.lookupVoice b.voice_id with
    | none => (Except.error (Err.keyError b.voice_id), [])
    | some voice =>
      if voice.platform = Platform.elevenlabs then
        if should_group_speech_block group b then
          (Except.ok (segs, group ++ [b]), [])
        else
          match generate_eleven_labs_audio_group tts env group with
          | (Except.error e, cs) => (Except.error e, cs)
          | (Except.ok pairs, cs) =>
            (Except.ok (segs ++ pairs.map Prod.fst, [b]), cs)
      else
        match generate_eleven_labs_audio_group tts env group with
        | (Except.error e, cs) => (Except.error e, cs)
        | (Except.ok pairs, cs) =>
          match generate_speech tts env b with
          | (Except.error e, cs2) => (Except.error e, cs ++ cs2)
          | (Except.ok a, cs2) =>
            (Except.ok ((segs ++ pairs.map Prod.fst) ++ [a], group), cs ++ cs2)
  else
    match generate_speech tts env b with
    | (Except.error e, cs2) => (Except.error e, cs2)
    | (Except.ok a, cs2) => (Except.ok (segs ++ [a], group), cs2)

/-- The scan loop of `generate_speech_list` (src/route_tts/client.py lines
133-160).  The `try/except` wraps each iteration: any exception `e` of the
body is re-raised as `ValueError("Error generating speech for block. Error: "
+ str(e))`, aborting the loop. -/
def gslLoop (tts : TTS) (env : Env) (request_stitching : Bool) :
    List AudioSegment → List SpeechBlock → List ELCall → List SpeechBlock →
    (Except Err (List AudioSegment × List SpeechBlock)) × List ELCall
  | segs, group, calls, [] => (Except.ok (segs, group), calls)
  | segs, group, calls, b :: rest =>
    match loopBody tts env request_stitching segs group b with
    | (Except.error e, cs) =>
      (Except.error (Err.valueError ("Error generating speech for block. Error: " ++ errStr e)), calls ++ cs)
    | (Except.ok sg, cs) =>
      gslLoop tts env request_stitching sg.1 sg.2 (calls ++ cs) rest

/-- Model of `TTS.normalize_audio` (src/route_tts/client.py lines 181-223) over plain
segments (all call sites pass plain segments, so the tuple pass-through
branch is never exercised).  Python `max()`/`min()` over an empty list raise,
and the linear remap divides by `current_range` (a `ZeroDivisionError` when
`current_range > target_range` yet `current_range = 0`, possible only for a
negative tolerance). -/
def normalize_audio (audio_segments : List AudioSegment)
    (normalize_outputs : Bool) (target_dBFS tolerance : ℚ) :
    Except Err (List AudioSegment) :=
  if normalize_outputs then
    match audio_segments with
    | [] => Except.error Err.maxEmpty
    | s :: rest =>
      let max_dBFS := (rest.map AudioSegment.dBFS).foldl max s.dBFS
      let min_dBFS := (rest.map AudioSegment.dBFS).foldl min s.dBFS
      let current_range := max_dBFS - min_dBFS
      let target_range := 2 * tolerance
      if current_range > target_range then
        if current_range = 0 then Except.error Err.zeroDivision
        else
          Except.ok ((s :: rest).map (fun audio =>
            let normalized_dBFS :=
              (audio.dBFS - min_dBFS) / current_range * target_range + (target_dBFS - tolerance)
            audio.apply_gain (normalized_dBFS - audio.dBFS)))
      else
        Except.ok ((s :: rest).map (fun audio =>
          audio.apply_gain (target_dBFS - (max_dBFS + min_dBFS) / 2)))
  else
    Except.ok audio_segments

/-- Result of `generate_speech_list`: either one combined segment (modelled
by the ordered list of concatenated parts, starting from
`AudioSegment.empty()`; its duration is `combinedDurationMs`) or the list of
individual segments. -/
inductive GSLResult where
  | single (parts : List AudioSegment)
  | multiple (segments : List AudioSegment)
deriving DecidableEq

/-- Model of `TTS.generate_speech_list` (src/route_tts/client.py lines 104-179): scan
loop, final flush of a non-empty remaining group (source lines 163-165,
outside the `try/except`), normalization (with the default
`target_dBFS = -30`, `tolerance = 3`), and output assembly. -/
def generate_speech_list (tts : TTS) (env : Env)
    (speech_blocks : List SpeechBlock)
    (single_output normalize_outputs request_stitching : Bool) :
    (Except Err GSLResult) × List ELCall :=
  match gslLoop tts env request_stitching [] [] [] speech_blocks with
  | (Except.error e, calls) => (Except.error e, calls)
  | (Except.ok sg, calls) =>
    match (if sg.2.isEmpty then (Except.ok sg.1, []) else
            match generate_eleven_labs_audio_group tts env sg.2 with
            | (Except.error e, cs) => (Except.error e, cs)
            | (Except.ok pairs, cs) =>
              (Except.ok (sg.1 ++ pairs.map Prod.fst), cs)) with
    | (Except.error e, cs) => (Except.error e, calls ++ cs)
    | (Except.ok segs2, cs) =>
      match normalize_audio segs2 normalize_outputs (-30) 3 with
      | Except.error e => (Except.error e, calls ++ cs)
      | Except.ok normalized =>
        (Except.ok (if single_output then GSLResult.single normalized
                    else GSLResult.multiple normalized), calls ++ cs)

/-- Maximum loudness across a list of segments, as computed by
`max(get_audio(segment).dBFS for segment in audio_segments)` (0 is a dummy
value for the empty list, on which the source raises instead). -/
def maxLoudness : List AudioSegment → ℚ
  | [] => 0
  | s :: rest => (rest.map AudioSegment.dBFS).foldl max s.dBFS

/-- Minimum loudness across a list of segments. -/
def minLoudness : List AudioSegment → ℚ
  | [] => 0
  | s :: rest => (rest.map AudioSegment.dBFS).foldl min s.dBFS

/-- The loudness range `current_range = max_dBFS - min_dBFS`. -/
def loudnessRange (segs : List AudioSegment) : ℚ :=
  maxLoudness segs - minLoudness segs

/-- Characterization of the ElevenLabs call issued for the block at index
`idx` of a stitching `group`: previous/next text are the space-joined texts
of the blocks before/after it (absent at the edges), and
`previous_request_ids` is the window actually passed. -/
def mkGroupCall (v : Voice) (b : SpeechBlock) (idx : Nat)
    (group : List SpeechBlock) (pids : List String) : ELCall :=
  { voice_id := v.voice
    model_id := v.voice_model
    text := b.text
    previous_text :=
      if idx = 0 then none
      else some (joinSpace ((group.take idx).map SpeechBlock.text))
    next_text :=
      if idx = group.length - 1 then none
      else some (joinSpace ((group.drop (idx + 1)).map SpeechBlock.text))
    previous_request_ids := some pids }

/-! Concrete instances used by witnesses and counterexamples. -/

/-- A registered ElevenLabs voice. -/
def elVoice : Voice := ⟨"el", Platform.elevenlabs, "em", "ev"⟩

/-- A registered OpenAI voice. -/
def oaVoice : Voice := ⟨"oa", Platform.openai, "om", "ov"⟩

/-- A TTS client with both vendor clients initialized. -/
def tts1 : TTS := ⟨[elVoice, oaVoice], true, true⟩

/-- Environment whose ElevenLabs endpoint always succeeds, echoing the
request text into the request id, and whose OpenAI endpoint returns a fixed
segment. -/
def env1 : Env :=
  ⟨fun _ p => ⟨200, ⟨-30, 1000⟩, some ("r" ++ p.text), ""⟩,
   fun _ _ _ => Except.ok ⟨-30, 500⟩⟩

/-- Environment whose ElevenLabs responses are HTTP 200 but carry no
request-id header. -/
def envNoRid : Env :=
  ⟨fun _ _ => ⟨200, ⟨-30, 1000⟩, none, ""⟩,
   fun _ _ _ => Except.ok ⟨-30, 500⟩⟩

/-- Environment whose ElevenLabs audio duration depends on the request text
(1000 ms for text "a", 2000 ms otherwise). -/
def envDur : Env :=
  ⟨fun _ p => ⟨200, ⟨-30, if p.text = "a" then 1000 else 2000⟩, some ("r" ++ p.text), ""⟩,
   fun _ _ _ => Except.ok ⟨-30, 500⟩⟩

/-- Five same-voice ElevenLabs blocks with texts "0".."4". -/
def blocks5 : List SpeechBlock :=
  [⟨"el", "0", 0⟩, ⟨"el", "1", 0⟩, ⟨"el", "2", 0⟩, ⟨"el", "3", 0⟩, ⟨"el", "4", 0⟩]

/-- The (audio, request-id) pairs produced for `blocks5` under `env1`. -/
def pairs5 : List (AudioSegment × String) :=
  [(⟨-30, 1000⟩, "r0"), (⟨-30, 1000⟩, "r1"), (⟨-30, 1000⟩, "r2"),
   (⟨-30, 1000⟩, "r3"), (⟨-30, 1000⟩, "r4")]

/-- Three same-voice ElevenLabs blocks with texts T0, T1, T2. -/
def blocks3 : List SpeechBlock :=
  [⟨"el", "T0", 0⟩, ⟨"el", "T1", 0⟩, ⟨"el", "T2", 0⟩]

/-- The (audio, request-id) pairs produced for `blocks3` under `env1`. -/
def pairs3 : List (AudioSegment × String) :=
  [(⟨-30, 1000⟩, "rT0"), (⟨-30, 1000⟩, "rT1"), (⟨-30, 1000⟩, "rT2")]

/-- C9: normalize_audio invoked (with normalization enabled) on an empty
list of buffers fails (Python `max()` on an empty sequence — the
error the specification names `EmptyInputError`) and never returns a value. -/
theorem normalize_empty_error (target_dBFS tolerance : ℚ) :
    normalize_audio [] true target_dBFS tolerance = Except.error Err.maxEmpty :=
  rfl

/-- C1 (code bug): on the input [ElevenLabs block, OpenAI block] with
request_stitching on and single_output off, the non-ElevenLabs branch of the scan
flushes the group without clearing it, so the audio of the ElevenLabs block is
produced twice (once in the loop, once by the final flush): the returned
list has 3 buffers for 2 input blocks, and the duplicate is appended out of
order at the end. -/
theorem flush_without_clear_duplicates_output :
    (generate_speech_list tts1 env1 [⟨"el", "a", 0⟩, ⟨"oa", "b", 0⟩] false false true).1
      = Except.ok (GSLResult.multiple [⟨-30, 1000⟩, ⟨-30, 500⟩, ⟨-30, 1000⟩]) ∧
    ([(⟨-30, 1000⟩ : AudioSegment), ⟨-30, 500⟩, ⟨-30, 1000⟩].length
      ≠ [(⟨"el", "a", 0⟩ : SpeechBlock), ⟨"oa", "b", 0⟩].length) :=
  ⟨rfl, by decide⟩

/-- C3 (counterexample): a failure during the final group flush after the
scan (here: a 200 response lacking the request-id header, for a single
ElevenLabs block) propagates as the raw adapter error, not as the
generation-level "Error generating speech for block" wrapper, and the error
identifies no block. -/
theorem final_flush_error_unwrapped :
    (generate_speech_list tts1 envNoRid [⟨"el", "a", 0⟩] true true true).1
      = Except.error (Err.valueError "No request-id found in response headers") ∧
    ("No request-id found in response headers"
      ≠ "Error generating speech for block. Error: No request-id found in response headers") :=
  ⟨rfl, by decide⟩

/-- C3 (amended): any failure raised by a scan-loop iteration of
generate_speech_list is caught and re-raised as a single
`ValueError("Error generating speech for block. Error: " + str(e))` carrying
the message of the original cause (but not identifying which block), and the loop
stops at that failure, so no partial results are returned. -/
theorem loop_failure_wrapped (tts : TTS) (env : Env) (request_stitching : Bool)
    (segs : List AudioSegment) (group : List SpeechBlock) (calls : List ELCall)
    (b : SpeechBlock) (rest : List SpeechBlock) (e : Err) (cs : List ELCall)
    (h : loopBody tts env request_stitching segs group b = (Except.error e, cs)) :
    (gslLoop tts env request_stitching segs group calls (b :: rest)).1
      = Except.error (Err.valueError ("Error generating speech for block. Error: " ++ errStr e)) := by
  simp [gslLoop, h]

/-- Witness for `loop_failure_wrapped`: an unresolvable voice id "zz" makes
the loop body raise `KeyError("zz")`, which the loop re-raises wrapped. -/
theorem loop_failure_wrapped_witness :
    loopBody tts1 env1 true [] [] ⟨"zz", "x", 0⟩ = (Except.error (Err.keyError "zz"), []) ∧
    (gslLoop tts1 env1 true [] [] [] [⟨"zz", "x", 0⟩]).1
      = Except.error (Err.valueError ("Error generating speech for block. Error: " ++ errStr (Err.keyError "zz"))) :=
  ⟨rfl, loop_failure_wrapped tts1 env1 true [] [] [] ⟨"zz", "x", 0⟩ [] (Err.keyError "zz") [] rfl⟩

/-- C10: flushing an empty group is a no-op (generate_eleven_labs_audio_group
on the empty list returns the empty list with no provider calls), and a scan
iteration whose first block resolves to an OpenAI voice under
request_stitching triggers exactly such an empty flush: it contributes no
audio, raises no error, and produces only the segment of the OpenAI block itself. -/
theorem empty_group_flush_noop :
    (∀ (tts : TTS) (env : Env),
      generate_eleven_labs_audio_group tts env [] = (Except.ok [], [])) ∧
    (∀ (tts : TTS) (env : Env) (b : SpeechBlock) (v : Voice) (a : AudioSegment),
      tts.lookupVoice b.voice_id = some v → v.platform = Platform.openai →
      genOpenAISpeech tts env v b.text = Except.ok a →
      loopBody tts env true [] [] b = (Except.ok ([a], []), [])) := by
  constructor
  · intro tts env
    rfl
  · intro tts env b v a hv hp ha
    simp [loopBody, hv, hp, generate_speech, generate_eleven_labs_audio_group,
          elGroupAux, ha]

/-- Witness for `empty_group_flush_noop`: the OpenAI voice "oa" at the head
of the input under stitching. -/
theorem empty_group_flush_noop_witness :
    (tts1.lookupVoice "oa" = some oaVoice ∧ oaVoice.platform = Platform.openai ∧
      genOpenAISpeech tts1 env1 oaVoice "b" = Except.ok ⟨-30, 500⟩) ∧
    loopBody tts1 env1 true [] [] ⟨"oa", "b", 0⟩ = (Except.ok ([⟨-30, 500⟩], []), []) :=
  ⟨⟨rfl, rfl, rfl⟩,
    empty_group_flush_noop.2 tts1 env1 ⟨"oa", "b", 0⟩ oaVoice ⟨-30, 500⟩ rfl rfl rfl⟩

/-! Helper lemmas about loudness folds and gain maps. -/

theorem foldl_max_map_add (l : List ℚ) (a c : ℚ) :
    (l.map (fun x => x + c)).foldl max (a + c) = l.foldl max a + c := by
  induction l generalizing a with
  | nil => simp
  | cons x xs ih =>
    simp only [List.map_cons, List.foldl_cons, max_add_add_right]
    exact ih (max a x)

theorem foldl_min_map_add (l : List ℚ) (a c : ℚ) :
    (l.map (fun x => x + c)).foldl min (a + c) = l.foldl min a + c := by
  induction l generalizing a with
  | nil => simp
  | cons x xs ih =>
    simp only [List.map_cons, List.foldl_cons, min_add_add_right]
    exact ih (min a x)

theorem le_foldl_max (l : List ℚ) (a : ℚ) : a ≤ l.foldl max a := by
  induction l generalizing a with
  | nil => simp
  | cons x xs ih => exact le_trans (le_max_left a x) (ih (max a x))

theorem foldl_max_le_of_mem (l : List ℚ) (a x : ℚ) (hx : x ∈ l) :
    x ≤ l.foldl max a := by
  induction l generalizing a with
  | nil => cases hx
  | cons y ys ih =>
    rcases List.mem_cons.mp hx with h | h
    · subst h
      exact le_trans (le_max_right a x) (le_foldl_max ys (max a x))
    · exact ih (max a y) h

theorem foldl_min_le (l : List ℚ) (a : ℚ) : l.foldl min a ≤ a := by
  induction l generalizing a with
  | nil => simp
  | cons x xs ih => exact le_trans (ih (min a x)) (min_le_left a x)

theorem foldl_min_le_of_mem (l : List ℚ) (a x : ℚ) (hx : x ∈ l) :
    l.foldl min a ≤ x := by
  induction l generalizing a with
  | nil => cases hx
  | cons y ys ih =>
    rcases List.mem_cons.mp hx with h | h
    · subst h
      exact le_trans (foldl_min_le ys (min a x)) (min_le_right a x)
    · exact ih (min a y) h

theorem map_dBFS_apply_gain (l : List AudioSegment) (c : ℚ) :
    ((l.map (fun a => a.apply_gain c)).map AudioSegment.dBFS)
      = (l.map AudioSegment.dBFS).map (fun x => x + c) := by
  induction l with
  | nil => rfl
  | cons a as ih => simp [AudioSegment.apply_gain, ih]

theorem map_apply_gain_zero (l : List AudioSegment) :
    l.map (fun a => a.apply_gain 0) = l := by
  induction l with
  | nil => rfl
  | cons a as ih => simp [AudioSegment.apply_gain, ih]

/-- C8: for every single buffer, normalize_audio takes the tight-range
branch (`current_range = 0`, not greater than `2 * 3`) and shifts the buffer
loudness to exactly the default target level -30, since the recentering gain
equals target minus the own loudness of the buffer. -/
theorem single_buffer_normalization (a : AudioSegment) :
    normalize_audio [a] true (-30) 3 = Except.ok [⟨-30, a.durationMs⟩] := by
  have hlt : ¬ (a.dBFS - a.dBFS > 2 * 3) := by
    rw [sub_self]
    norm_num
  simp only [normalize_audio, List.foldl_nil, List.map_nil, if_true, hlt, if_false,
    List.map_cons, AudioSegment.apply_gain]
  norm_num

/-- Tight-range branch of `normalize_audio`: when the loudness range does
not exceed `2 * tolerance`, every buffer is shifted by the single uniform
recentering gain. -/
theorem normalize_tight (s : AudioSegment) (rest : List AudioSegment)
    (target tol : ℚ)
    (hnot : ¬ ((rest.map AudioSegment.dBFS).foldl max s.dBFS
        - (rest.map AudioSegment.dBFS).foldl min s.dBFS > 2 * tol)) :
    normalize_audio (s :: rest) true target tol
      = Except.ok ((s :: rest).map (fun a => a.apply_gain
          (target - ((rest.map AudioSegment.dBFS).foldl max s.dBFS
            + (rest.map AudioSegment.dBFS).foldl min s.dBFS) / 2))) := by
  simp only [normalize_audio]
  rw [if_neg hnot]
  simp

/-- C7: normalize_audio is idempotent on non-empty lists whose loudness
range is at most `2 * tolerance`: one application applies the uniform
recentering gain, a second application is the identity (its recentering
adjustment is zero), and every resulting loudness lies within
`target_level ± tolerance`. -/
theorem normalize_idempotent_tight_range (segs : List AudioSegment)
    (target tol : ℚ) (hne : segs ≠ [])
    (hr : loudnessRange segs ≤ 2 * tol) :
    ∃ out, normalize_audio segs true target tol = Except.ok out ∧
      normalize_audio out true target tol = Except.ok out ∧
      ∀ a ∈ out, target - tol ≤ a.dBFS ∧ a.dBFS ≤ target + tol := by
  match segs, hne with
  | s :: rest, _ =>
    have hr' : (rest.map AudioSegment.dBFS).foldl max s.dBFS
        - (rest.map AudioSegment.dBFS).foldl min s.dBFS ≤ 2 * tol := by
      simpa [loudnessRange, maxLoudness, minLoudness] using hr
    have hnot := not_lt.mpr hr'
    set ds := rest.map AudioSegment.dBFS with hds
    set maxD := ds.foldl max s.dBFS with hmaxD
    set minD := ds.foldl min s.dBFS with hminD
    set c := target - (maxD + minD) / 2 with hc
    refine ⟨(s :: rest).map (fun a => a.apply_gain c), normalize_tight s rest target tol hnot, ?_, ?_⟩
    · -- second application is the identity
      have hmap : (s :: rest).map (fun a => a.apply_gain c)
          = s.apply_gain c :: rest.map (fun a => a.apply_gain c) := rfl
      rw [hmap]
      have hds' : (rest.map (fun a => a.apply_gain c)).map AudioSegment.dBFS
          = ds.map (fun x => x + c) := map_dBFS_apply_gain rest c
      have hsd : (s.apply_gain c).dBFS = s.dBFS + c := rfl
      have hmax' : ((rest.map (fun a => a.apply_gain c)).map AudioSegment.dBFS).foldl
          max (s.apply_gain c).dBFS = maxD + c := by
        rw [hds', hsd]
        exact foldl_max_map_add ds s.dBFS c
      have hmin' : ((rest.map (fun a => a.apply_gain c)).map AudioSegment.dBFS).foldl
          min (s.apply_gain c).dBFS = minD + c := by
        rw [hds', hsd]
        exact foldl_min_map_add ds s.dBFS c
      have hnot' : ¬ (((rest.map (fun a => a.apply_gain c)).map AudioSegment.dBFS).foldl
            max (s.apply_gain c).dBFS
          - ((rest.map (fun a => a.apply_gain c)).map AudioSegment.dBFS).foldl
            min (s.apply_gain c).dBFS > 2 * tol) := by
        rw [hmax', hmin']
        intro hgt
        apply hnot
        linarith
      have h2 := normalize_tight (s.apply_gain c) (rest.map (fun a => a.apply_gain c))
        target tol hnot'
      rw [hmax', hmin'] at h2
      have hzero : target - (maxD + c + (minD + c)) / 2 = 0 := by
        rw [hc]
        ring
      rw [hzero] at h2
      have hid : (s.apply_gain c :: rest.map (fun a => a.apply_gain c)).map
          (fun a => a.apply_gain 0)
          = s.apply_gain c :: rest.map (fun a => a.apply_gain c) :=
        map_apply_gain_zero _
      rw [hid] at h2
      exact h2
    · -- bounds
      intro a ha
      rcases List.mem_map.mp ha with ⟨b, hb, rfl⟩
      have hble : b.dBFS ≤ maxD := by
        rcases List.mem_cons.mp hb with h | h
        · subst h
          exact le_foldl_max ds b.dBFS
        · exact foldl_max_le_of_mem ds s.dBFS b.dBFS (List.mem_map_of_mem AudioSegment.dBFS h)
      have hbge : minD ≤ b.dBFS := by
        rcases List.mem_cons.mp hb with h | h
        · subst h
          exact foldl_min_le ds b.dBFS
        · exact foldl_min_le_of_mem ds s.dBFS b.dBFS (List.mem_map_of_mem AudioSegment.dBFS h)
      have hgain : (b.apply_gain c).dBFS = b.dBFS + c := rfl
      rw [hgain, hc]
      constructor <;> linarith

/-- Witness for `normalize_idempotent_tight_range`: two buffers at -31 and
-29 dBFS (range 2 ≤ 2 * 3) against the default target -30. -/
theorem normalize_idempotent_tight_range_witness :
    (([⟨-31, 1⟩, ⟨-29, 1⟩] : List AudioSegment) ≠ [] ∧
      loudnessRange [⟨-31, 1⟩, ⟨-29, 1⟩] ≤ 2 * 3) ∧
    (∃ out, normalize_audio [⟨-31, 1⟩, ⟨-29, 1⟩] true (-30) 3 = Except.ok out ∧
      normalize_audio out true (-30) 3 = Except.ok out ∧
      ∀ a ∈ out, -30 - 3 ≤ a.dBFS ∧ a.dBFS ≤ -30 + 3) :=
  ⟨⟨by decide, by norm_num [loudnessRange, maxLoudness, minLoudness]⟩,
    normalize_idempotent_tight_range [⟨-31, 1⟩, ⟨-29, 1⟩] (-30) 3 (by decide)
      (by norm_num [loudnessRange, maxLoudness, minLoudness])⟩

/-- Inversion for a successful ElevenLabs synthesis: exactly one HTTP call
was issued, recording the arguments as passed. -/
theorem genElevenSpeech_ok_calls (tts : TTS) (env : Env) (voice : Voice)
    (text : String) (pt nt : Option String) (pids : Option (List String))
    (a : AudioSegment) (r : String) (cs : List ELCall)
    (h : genElevenSpeech tts env voice text pt nt pids = (Except.ok (a, r), cs)) :
    cs = [⟨voice.voice, voice.voice_model, text, pt, nt, pids⟩] := by
  simp only [genElevenSpeech] at h
  split at h
  · split at h
    · split at h
      · simp at h
      · simp only [Prod.mk.injEq] at h
        exact h.2.symm
    · simp at h
  · simp at h

/-- Trace characterization of the group generator loop: on success over the
remaining blocks `rest` (starting at index `i` of the full `group`, with
accumulated token history `prevIds`), one call per block is issued, whose
conditioning arguments are exactly those of `mkGroupCall`, with the token
window `lastN 3` of the history extended by the tokens of the preceding
calls of this run. -/
theorem elGroupAux_spec (tts : TTS) (env : Env) (group : List SpeechBlock) :
    ∀ (rest : List SpeechBlock) (i : Nat) (prevIds : List String)
      (pairs : List (AudioSegment × String)) (calls : List ELCall),
      elGroupAux tts env group i prevIds rest = (Except.ok pairs, calls) →
      calls.length = rest.length ∧ pairs.length = rest.length ∧
      ∀ j (hj : j < calls.length),
        ∃ v b, rest.get? j = some b ∧ tts.lookupVoice b.voice_id = some v ∧
          calls.get ⟨j, hj⟩
            = mkGroupCall v b (i + j) group
                (lastN 3 (prevIds ++ (pairs.map Prod.snd).take j)) := by
  intro rest
  induction rest with
  | nil =>
    intro i prevIds pairs calls h
    simp only [elGroupAux, Prod.mk.injEq, Except.ok.injEq] at h
    obtain ⟨h1, h2⟩ := h
    subst h1
    subst h2
    refine ⟨rfl, rfl, ?_⟩
    intro j hj
    exact absurd hj (by simp)
  | cons b rest ih =>
    intro i prevIds pairs calls h
    simp only [elGroupAux] at h
    split at h
    · simp at h
    · rename_i voice hlv
      split at h
      · simp at h
      · rename_i ar cs hgen
        split at h
        · simp at h
        · rename_i pairs2 cs2 hrec
          simp only [Prod.mk.injEq, Except.ok.injEq] at h
          obtain ⟨hp, hcalls⟩ := h
          subst hp
          subst hcalls
          have hcs : cs = [⟨voice.voice, voice.voice_model, b.text,
              (if i = 0 then none
               else some (joinSpace ((group.take i).map SpeechBlock.text))),
              (if i = group.length - 1 then none
               else some (joinSpace ((group.drop (i + 1)).map SpeechBlock.text))),
              some (lastN 3 prevIds)⟩] :=
            genElevenSpeech_ok_calls tts env voice b.text _ _ _ ar.1 ar.2 cs (by rw [hgen])
          obtain ⟨hlen, hplen, hspec⟩ := ih (i + 1) (prevIds ++ [ar.2]) pairs2 cs2 hrec
          subst hcs
          refine ⟨by simp [hlen], by simp [hplen], ?_⟩
          intro j hj
          match j with
          | 0 =>
            refine ⟨voice, b, rfl, hlv, ?_⟩
            simp [mkGroupCall]
          | j + 1 =>
            have hj' : j < cs2.length := by
              simpa using hj
            obtain ⟨v, b2, hget, hlv2, hcall⟩ := hspec j hj'
            refine ⟨v, b2, by simpa using hget, hlv2, ?_⟩
            have hidx : (([(⟨voice.voice, voice.voice_model, b.text,
                (if i = 0 then none
                 else some (joinSpace ((group.take i).map SpeechBlock.text))),
                (if i = group.length - 1 then none
                 else some (joinSpace ((group.drop (i + 1)).map SpeechBlock.text))),
                some (lastN 3 prevIds)⟩ : ELCall)] ++ cs2).get ⟨j + 1, hj⟩) = cs2.get ⟨j, hj'⟩ := by
              simp
            rw [hidx, hcall]
            have harg : (prevIds ++ [ar.2]) ++ (pairs2.map Prod.snd).take j
                = prevIds ++ ((ar :: pairs2).map Prod.snd).take (j + 1) := by
              simp
            rw [← harg]
            have hadd : i + 1 + j = i + (j + 1) := by omega
            rw [hadd]

/-- C4: in a successful group flush, the call for the block at index i
receives as previous_request_ids exactly the last 3 continuation tokens
returned by the preceding calls of the same group (the empty list for
i = 0), even though the internal token history accumulates unboundedly. -/
theorem continuation_token_window (tts : TTS) (env : Env)
    (group : List SpeechBlock) (pairs : List (AudioSegment × String))
    (calls : List ELCall)
    (h : generate_eleven_labs_audio_group tts env group = (Except.ok pairs, calls))
    (i : Nat) (hi : i < calls.length) :
    (calls.get ⟨i, hi⟩).previous_request_ids
      = some (lastN 3 ((pairs.map Prod.snd).take i)) := by
  obtain ⟨-, -, hspec⟩ := elGroupAux_spec tts env group group 0 [] pairs calls h
  obtain ⟨v, b, -, -, hcall⟩ := hspec i hi
  rw [hcall]
  simp [mkGroupCall]

/-- Witness for `continuation_token_window`: a group of 5 calls whose tokens
are r0..r4; the 5th call carries exactly [r1, r2, r3] — never r0. -/
theorem continuation_token_window_witness :
    (generate_eleven_labs_audio_group tts1 env1 blocks5
        = (Except.ok pairs5, (generate_eleven_labs_audio_group tts1 env1 blocks5).2) ∧
      4 < (generate_eleven_labs_audio_group tts1 env1 blocks5).2.length) ∧
    ((generate_eleven_labs_audio_group tts1 env1 blocks5).2.get
        ⟨4, by decide⟩).previous_request_ids = some ["r1", "r2", "r3"] :=
  ⟨⟨rfl, by decide⟩,
    (continuation_token_window tts1 env1 blocks5 pairs5
      (generate_eleven_labs_audio_group tts1 env1 blocks5).2 rfl 4 (by decide)).trans rfl⟩

/-- C5: in a successful group flush over blocks with texts T0..T(n-1), the
call for block i carries previous_text equal to the space-joined texts of
blocks 0..i-1 (absent, not empty, for i = 0) and next_text equal to the
space-joined texts of blocks i+1..n-1 (absent for i = n-1). -/
theorem neighbor_text_conditioning (tts : TTS) (env : Env)
    (group : List SpeechBlock) (pairs : List (AudioSegment × String))
    (calls : List ELCall)
    (h : generate_eleven_labs_audio_group tts env group = (Except.ok pairs, calls))
    (i : Nat) (hi : i < calls.length) :
    (calls.get ⟨i, hi⟩).previous_text
        = (if i = 0 then none
           else some (joinSpace ((group.take i).map SpeechBlock.text))) ∧
    (calls.get ⟨i, hi⟩).next_text
        = (if i = group.length - 1 then none
           else some (joinSpace ((group.drop (i + 1)).map SpeechBlock.text))) := by
  obtain ⟨-, -, hspec⟩ := elGroupAux_spec tts env group group 0 [] pairs calls h
  obtain ⟨v, b, -, -, hcall⟩ := hspec i hi
  rw [hcall]
  simp [mkGroupCall]

/-- Witness for `neighbor_text_conditioning`: a group of 3 blocks with texts
T0, T1, T2; the call for block 1 receives previous_text = "T0" and
next_text = "T2". -/
theorem neighbor_text_conditioning_witness :
    (generate_eleven_labs_audio_group tts1 env1 blocks3
        = (Except.ok pairs3, (generate_eleven_labs_audio_group tts1 env1 blocks3).2) ∧
      1 < (generate_eleven_labs_audio_group tts1 env1 blocks3).2.length) ∧
    (((generate_eleven_labs_audio_group tts1 env1 blocks3).2.get
        ⟨1, by decide⟩).previous_text = some "T0" ∧
      ((generate_eleven_labs_audio_group tts1 env1 blocks3).2.get
        ⟨1, by decide⟩).next_text = some "T2") :=
  ⟨⟨rfl, by decide⟩,
    ⟨(neighbor_text_conditioning tts1 env1 blocks3 pairs3
        (generate_eleven_labs_audio_group tts1 env1 blocks3).2 rfl 1 (by decide)).1.trans rfl,
      (neighbor_text_conditioning tts1 env1 blocks3 pairs3
        (generate_eleven_labs_audio_group tts1 env1 blocks3).2 rfl 1 (by decide)).2.trans rfl⟩⟩

/-- Under request stitching, a run of blocks sharing the voice of the current
group is only accumulated: no audio is produced and no call is issued
during the scan. -/
theorem gslLoop_same_voice (tts : TTS) (env : Env) (vid : String) (v : Voice)
    (hv : tts.lookupVoice vid = some v) (hp : v.platform = Platform.elevenlabs) :
    ∀ (blocks : List SpeechBlock) (segs : List AudioSegment)
      (group : List SpeechBlock) (calls : List ELCall),
      (∀ b ∈ blocks, b.voice_id = vid) → (∀ g ∈ group, g.voice_id = vid) →
      gslLoop tts env true segs group calls blocks
        = (Except.ok (segs, group ++ blocks), calls) := by
  intro blocks
  induction blocks with
  | nil =>
    intro segs group calls _ _
    simp [gslLoop]
  | cons b rest ih =>
    intro segs group calls hall hgroup
    have hb : b.voice_id = vid := hall b (by simp)
    have hlook : tts.lookupVoice b.voice_id = some v := by
      rw [hb]
      exact hv
    have hshould : should_group_speech_block group b = true := by
      cases group with
      | nil => rfl
      | cons g gs =>
        have hlast := hgroup ((g :: gs).getLast (by simp)) (List.getLast_mem (by simp))
        simp [should_group_speech_block, List.getLast?_eq_getLast (g :: gs) (by simp),
          hlast, hb]
    have hbody : loopBody tts env true segs group b
        = (Except.ok (segs, group ++ [b]), []) := by
      simp [loopBody, hlook, hp, hshould]
    have hgl : gslLoop tts env true segs group calls (b :: rest)
        = gslLoop tts env true segs (group ++ [b]) (calls ++ []) rest := by
      simp only [gslLoop, hbody]
    rw [hgl, List.append_nil, ih segs (group ++ [b]) calls
      (fun x hx => hall x (by simp [hx]))
      (fun g hg => by
        rcases List.mem_append.mp hg with h | h
        · exact hgroup g h
        · simp only [List.mem_singleton] at h
          rw [h]
          exact hb)]
    simp

/-- With request stitching disabled, every block resolving to the same
ElevenLabs voice is synthesized by an independent standalone call carrying
no conditioning arguments, the group is never touched, and the trace is one
such call per block (on success). -/
theorem gslLoop_no_stitch (tts : TTS) (env : Env) (vid : String) (v : Voice)
    (hv : tts.lookupVoice vid = some v) (hp : v.platform = Platform.elevenlabs) :
    ∀ (blocks : List SpeechBlock) (segs : List AudioSegment)
      (group : List SpeechBlock) (calls : List ELCall)
      (out : List AudioSegment × List SpeechBlock),
      (∀ b ∈ blocks, b.voice_id = vid) →
      (gslLoop tts env false segs group calls blocks).1 = Except.ok out →
      (gslLoop tts env false segs group calls blocks).2
          = calls ++ blocks.map (fun b =>
              ⟨v.voice, v.voice_model, b.text, none, none, none⟩) ∧
        out.2 = group := by
  intro blocks
  induction blocks with
  | nil =>
    intro segs group calls out _ h
    simp only [gslLoop, Except.ok.injEq] at h ⊢
    subst h
    simp
  | cons b rest ih =>
    intro segs group calls out hall h
    have hb : b.voice_id = vid := hall b (by simp)
    have hlook : tts.lookupVoice b.voice_id = some v := by
      rw [hb]
      exact hv
    have hbody : loopBody tts env false segs group b
        = match genElevenSpeech tts env v b.text none none none with
          | (Except.error e, cs2) => (Except.error e, cs2)
          | (Except.ok ar, cs2) => (Except.ok (segs ++ [ar.1], group), cs2) := by
      simp only [loopBody, generate_speech, hlook, hp]
      cases hg : genElevenSpeech tts env v b.text none none none with
      | mk r cs2 => cases r <;> simp
    cases hg : genElevenSpeech tts env v b.text none none none with
    | mk r cs2 =>
      cases r with
      | error e =>
        rw [hg] at hbody
        simp only [gslLoop, hbody] at h
        simp at h
      | ok ar =>
        rw [hg] at hbody
        have hcs : cs2 = [⟨v.voice, v.voice_model, b.text, none, none, none⟩] :=
          genElevenSpeech_ok_calls tts env v b.text none none none ar.1 ar.2 cs2
            (by rw [hg])
        have hstep : gslLoop tts env false segs group calls (b :: rest)
            = gslLoop tts env false (segs ++ [ar.1]) group (calls ++ cs2) rest := by
          simp only [gslLoop, hbody]
        rw [hstep] at h ⊢
        obtain ⟨htrace, hgroup⟩ := ih (segs ++ [ar.1]) group (calls ++ cs2) out
          (fun x hx => hall x (by simp [hx])) h
        refine ⟨?_, hgroup⟩
        rw [htrace, hcs]
        simp

/-- C6: for a sequence of consecutive blocks sharing one ElevenLabs voice,
generate_speech_list with request_stitching issues exactly the calls of a
single group flush over the whole sequence (one grouped flush of size N on
success, not N singleton calls), while with request_stitching disabled it
issues one independent call per block, none carrying previous_text,
next_text or previous_request_ids. -/
theorem grouping_determinism (tts : TTS) (env : Env) (vid : String) (v : Voice)
    (blocks : List SpeechBlock) (hv : tts.lookupVoice vid = some v)
    (hp : v.platform = Platform.elevenlabs)
    (hall : ∀ b ∈ blocks, b.voice_id = vid)
    (single_output normalize_outputs : Bool) :
    (generate_speech_list tts env blocks single_output normalize_outputs true).2
        = (generate_eleven_labs_audio_group tts env blocks).2 ∧
    (∀ pairs calls,
      generate_eleven_labs_audio_group tts env blocks = (Except.ok pairs, calls) →
      calls.length = blocks.length) ∧
    (∀ out,
      (generate_speech_list tts env blocks single_output normalize_outputs false).1
          = Except.ok out →
      (generate_speech_list tts env blocks single_output normalize_outputs false).2
          = blocks.map (fun b =>
              ⟨v.voice, v.voice_model, b.text, none, none, none⟩)) := by
  refine ⟨?_, ?_, ?_⟩
  · have hloop := gslLoop_same_voice tts env vid v hv hp blocks [] [] [] hall
      (by simp)
    rw [List.nil_append] at hloop
    simp only [generate_speech_list, hloop]
    cases blocks with
    | nil =>
      cases normalize_outputs <;>
        simp [generate_eleven_labs_audio_group, elGroupAux, normalize_audio]
    | cons b bs =>
      cases helG : generate_eleven_labs_audio_group tts env (b :: bs) with
      | mk r cs =>
        cases r with
        | error e => simp [helG]
        | ok pairs =>
          cases hn : normalize_audio (pairs.map Prod.fst) normalize_outputs (-30) 3 with
          | error e => simp [helG, hn]
          | ok nz => simp [helG, hn]
  · intro pairs calls hok
    exact (elGroupAux_spec tts env blocks blocks 0 [] pairs calls hok).1
  · intro out hok
    cases hloop : gslLoop tts env false [] [] [] blocks with
    | mk r0 calls0 =>
      cases r0 with
      | error e =>
        simp only [generate_speech_list, hloop] at hok
        exact absurd hok (by simp)
      | ok sg =>
        obtain ⟨htrace, hgroup⟩ := gslLoop_no_stitch tts env vid v hv hp blocks
          [] [] [] sg hall (by rw [hloop])
        rw [hloop] at htrace
        simp only [List.nil_append] at htrace
        simp only [generate_speech_list, hloop]
        cases hn : normalize_audio sg.1 normalize_outputs (-30) 3 with
        | error e => simp [hgroup, hn, htrace]
        | ok nz => simp [hgroup, hn, htrace]

/-- Witness for `grouping_determinism`: three same-voice ElevenLabs blocks;
the stitched trace is that of one group flush over all three. -/
theorem grouping_determinism_witness :
    (tts1.lookupVoice "el" = some elVoice ∧
      elVoice.platform = Platform.elevenlabs ∧
      ∀ b ∈ blocks3, b.voice_id = "el") ∧
    (generate_speech_list tts1 env1 blocks3 true true true).2
      = (generate_eleven_labs_audio_group tts1 env1 blocks3).2 :=
  ⟨⟨rfl, rfl, by decide⟩,
    (grouping_determinism tts1 env1 "el" elVoice blocks3 rfl rfl (by decide)
      true true).1⟩

/-- Gain application never changes durations, elementwise over a list. -/
theorem map_durationMs_apply_gain (l : List AudioSegment) (g : AudioSegment → ℚ) :
    ((l.map (fun a => a.apply_gain (g a))).map AudioSegment.durationMs)
      = l.map AudioSegment.durationMs := by
  induction l with
  | nil => rfl
  | cons a as ih => simp_all [AudioSegment.apply_gain]

/-- normalize_audio with the default target and tolerance succeeds on every
non-empty list and preserves every duration. -/
theorem normalize_audio_durations (segs : List AudioSegment) (hne : segs ≠ []) :
    ∃ out, normalize_audio segs true (-30) 3 = Except.ok out ∧
      out.map AudioSegment.durationMs = segs.map AudioSegment.durationMs := by
  match segs, hne with
  | s :: rest, _ =>
    by_cases hgt : ((rest.map AudioSegment.dBFS).foldl max s.dBFS
        - (rest.map AudioSegment.dBFS).foldl min s.dBFS) > 2 * 3
    · have hne0 : ¬ ((rest.map AudioSegment.dBFS).foldl max s.dBFS
          - (rest.map AudioSegment.dBFS).foldl min s.dBFS) = 0 := by
        intro h0
        rw [h0] at hgt
        norm_num at hgt
      have heq : normalize_audio (s :: rest) true (-30) 3
          = Except.ok ((s :: rest).map (fun audio =>
              audio.apply_gain
                ((audio.dBFS - (rest.map AudioSegment.dBFS).foldl min s.dBFS)
                  / ((rest.map AudioSegment.dBFS).foldl max s.dBFS
                      - (rest.map AudioSegment.dBFS).foldl min s.dBFS) * (2 * 3)
                  + (-30 - 3) - audio.dBFS))) := by
        simp only [normalize_audio]
        rw [if_pos hgt, if_neg hne0]
        simp
      exact ⟨_, heq, map_durationMs_apply_gain (s :: rest) _⟩
    · exact ⟨_, normalize_tight s rest (-30) 3 hgt,
        map_durationMs_apply_gain (s :: rest) _⟩

/-- C2 (amended): for every non-empty run of blocks sharing one resolving
ElevenLabs voice whose group synthesis succeeds, generate_speech_list with
single_output returns one combined buffer whose duration is exactly the sum
of the per-block produced durations — no silence is inserted: neither the
per-block `buffer` fields nor any global inter-block buffer contribute. -/
theorem single_output_duration_sum (tts : TTS) (env : Env) (vid : String)
    (v : Voice) (blocks : List SpeechBlock)
    (pairs : List (AudioSegment × String)) (calls : List ELCall)
    (hv : tts.lookupVoice vid = some v) (hp : v.platform = Platform.elevenlabs)
    (hall : ∀ b ∈ blocks, b.voice_id = vid) (hne : blocks ≠ [])
    (hok : generate_eleven_labs_audio_group tts env blocks = (Except.ok pairs, calls)) :
    ∃ out, (generate_speech_list tts env blocks true true true).1
        = Except.ok (GSLResult.single out) ∧
      combinedDurationMs out = (pairs.map (fun p => p.1.durationMs)).sum ∧
      pairs.length = blocks.length := by
  match blocks, hne with
  | b :: bs, _ =>
    have hloop := gslLoop_same_voice tts env vid v hv hp (b :: bs) [] [] []
      hall (by simp)
    rw [List.nil_append] at hloop
    have hplen := (elGroupAux_spec tts env (b :: bs) (b :: bs) 0 [] pairs calls hok).2.1
    have hpne : pairs.map Prod.fst ≠ [] := by
      intro hnil
      rw [List.map_eq_nil_iff.mp hnil] at hplen
      simp at hplen
    obtain ⟨nout, hnorm, hdur⟩ := normalize_audio_durations (pairs.map Prod.fst) hpne
    refine ⟨nout, ?_, ?_, hplen⟩
    · simp [generate_speech_list, hloop, hok, hnorm]
    · rw [combinedDurationMs, hdur, List.map_map]
      rfl

/-- C2 (counterexample): two same-voice ElevenLabs blocks, the first with a
trailing-silence `buffer` of 100 ms, whose produced audio lasts 1000 ms and
2000 ms: the combined single output lasts 3000 ms — the 100 ms
`SpeechBlock.buffer` silence claimed by the specification (and any
inter-block buffer) is never inserted, so the duration is not 3100. -/
theorem buffer_silence_not_inserted :
    (generate_speech_list tts1 envDur [⟨"el", "a", 100⟩, ⟨"el", "b", 0⟩] true true true).1
      = Except.ok (GSLResult.single [⟨-30, 1000⟩, ⟨-30, 2000⟩]) ∧
    combinedDurationMs [⟨-30, 1000⟩, ⟨-30, 2000⟩] = 3000 ∧
    (3000 : ℚ) ≠ 1000 + 100 + 2000 := by
  have hloopEq : gslLoop tts1 envDur true [] [] []
      [⟨"el", "a", 100⟩, ⟨"el", "b", 0⟩]
      = (Except.ok ([], [⟨"el", "a", 100⟩, ⟨"el", "b", 0⟩]), []) := rfl
  obtain ⟨csFl, hflush⟩ : ∃ cs, generate_eleven_labs_audio_group tts1 envDur
      [⟨"el", "a", 100⟩, ⟨"el", "b", 0⟩]
      = (Except.ok [(⟨-30, 1000⟩, "ra"), (⟨-30, 2000⟩, "rb")], cs) := ⟨_, rfl⟩
  have hnot : ¬ ((([(⟨-30, 2000⟩ : AudioSegment)].map AudioSegment.dBFS).foldl
        max (-30 : ℚ)
      - (([(⟨-30, 2000⟩ : AudioSegment)].map AudioSegment.dBFS).foldl
        min (-30 : ℚ))) > 2 * 3) := by
    norm_num
  have hnorm : normalize_audio [⟨-30, 1000⟩, ⟨-30, 2000⟩] true (-30) 3
      = Except.ok [⟨-30, 1000⟩, ⟨-30, 2000⟩] := by
    have ht := normalize_tight ⟨-30, 1000⟩ [⟨-30, 2000⟩] (-30) 3 hnot
    rw [ht]
    norm_num [AudioSegment.apply_gain]
  refine ⟨?_, by norm_num [combinedDurationMs], by norm_num⟩
  simp [generate_speech_list, hloopEq, hflush, hnorm]

/-- Witness for `single_output_duration_sum`: three same-voice ElevenLabs
blocks, produced durations 1000 ms each. -/
theorem single_output_duration_sum_witness :
    (tts1.lookupVoice "el" = some elVoice ∧
      elVoice.platform = Platform.elevenlabs ∧
      (∀ b ∈ blocks3, b.voice_id = "el") ∧ blocks3 ≠ [] ∧
      generate_eleven_labs_audio_group tts1 env1 blocks3
        = (Except.ok pairs3, (generate_eleven_labs_audio_group tts1 env1 blocks3).2)) ∧
    (∃ out, (generate_speech_list tts1 env1 blocks3 true true true).1
        = Except.ok (GSLResult.single out) ∧
      combinedDurationMs out = (pairs3.map (fun p => p.1.durationMs)).sum ∧
      pairs3.length = blocks3.length) :=
  ⟨⟨rfl, rfl, by decide, by decide, rfl⟩,
    single_output_duration_sum tts1 env1 "el" elVoice blocks3 pairs3
      (generate_eleven_labs_audio_group tts1 env1 blocks3).2 rfl rfl (by decide)
      (by decide) rfl⟩
